import Mathlib

/-!
Verification of the nasx privileged filesystem worker
(`apps/root-worker`: `userctx.go` and the worker main file).

The development shallowly embeds the code of the worker:

* the credential-impersonation routine `runAsUser` becomes a pure
  function over Boolean oracles for the three setup syscalls, producing
  the trace of syscall events together with the result of the routine;
* the filesystem operations (`doMkdir`, `doRename`, `doMove`, `doRead`,
  `doDelete`) become pure functions over an explicit filesystem state
  (sets of directory and file paths, a path being its list of cleaned
  components) or over outcome oracles for the underlying OS calls;
* the NATS task handler `handleTask` and the request-reply handlers
  become pure functions from the decoded message (plus an outcome
  oracle for the operation body) to the acknowledgement action, the
  published events and the reply.
-/

/- ────────────────────────────────────────────────────────────────────
   Credential impersonation (`userctx.go`, `runAsUser`, lines 54-86)
   ──────────────────────────────────────────────────────────────────── -/

/-- `userCtx` from `userctx.go` lines 11-15: numeric uid, primary gid and
supplementary gids of the user to impersonate. -/
structure UserCtx where
  uid : Nat
  gid : Nat
  gids : List Nat
deriving DecidableEq, Repr

/-- One credential-related event on the pinned OS thread, in the order the
code issues it: the three setup/restore syscalls and the execution of the
unit of work `fn`. -/
inductive CredEvent
  | setgroups (gids : List Nat)
  | setresgid (rgid egid sgid : Nat)
  | setresuid (ruid euid suid : Nat)
  | runWork
deriving DecidableEq, Repr

/-- Result of `runAsUser`: either one of the three setup syscalls failed
(the code returns the wrapped syscall error and never runs `fn`), or the
unit of work ran and its own result (`none` = nil error) is returned. -/
inductive RunResult
  | setgroupsFailed
  | setresgidFailed
  | setresuidFailed
  | done (fnErr : Option String)
deriving DecidableEq, Repr

/-- Shallow embedding of `runAsUser` (`userctx.go` lines 54-86).

The three Booleans are oracles for the success of the setup syscalls
`Setgroups`, `Setresgid`, `Setresuid` in that order; `fnErr` is the
result of the unit of work `fn` (`none` meaning nil).  The function
returns the trace of events issued on the locked OS thread together
with the value sent on the channel.  The restore calls
(`Setresuid(0,0,0)`, `Setresgid(0,0,0)`, `Setgroups([0])`) have their
errors discarded by the code (`_ =`), so no oracle is needed for them:
they are always issued, in that order, after `fn` ran. -/
def runAsUser (ctx : UserCtx) (okSetgroups okSetresgid okSetresuid : Bool)
    (fnErr : Option String) : List CredEvent × RunResult :=
  let t1 := [CredEvent.setgroups ctx.gids]
  if !okSetgroups then
    (t1, .setgroupsFailed)
  else
    let t2 := t1 ++ [CredEvent.setresgid ctx.gid ctx.gid 0]
    if !okSetresgid then
      (t2, .setresgidFailed)
    else
      let t3 := t2 ++ [CredEvent.setresuid 0 ctx.uid 0]
      if !okSetresuid then
        (t3, .setresuidFailed)
      else
        (t3 ++ [CredEvent.runWork,
                CredEvent.setresuid 0 0 0,
                CredEvent.setresgid 0 0 0,
                CredEvent.setgroups [0]],
         .done fnErr)

/- ────────────────────────────────────────────────────────────────────
   Error taxonomy (worker ops file, `fsError` and `mapOsErr`, lines 30-62)
   ──────────────────────────────────────────────────────────────────── -/

deriving instance DecidableEq for Except

/-- `fsError` from the worker ops file lines 30-34: a classified error
with a code string and a message. -/
structure FsError where
  code : String
  message : String
deriving DecidableEq, Repr

/-- The OS error numbers the worker distinguishes; `other` carries the
error text for everything it maps to the generic bucket. -/
inductive GoErrno
  | eacces
  | eperm
  | enoent
  | eexist
  | enotempty
  | exdev
  | other (msg : String)
deriving DecidableEq, Repr

/-- Message text of an errno, used where the code falls through to the
generic `ERR` bucket with `err.Error()`. -/
def errnoText : GoErrno → String
  | .eacces => "permission denied"
  | .eperm => "operation not permitted"
  | .enoent => "no such file or directory"
  | .eexist => "file exists"
  | .enotempty => "directory not empty"
  | .exdev => "invalid cross-device link"
  | .other msg => msg

/-- Shallow embedding of `mapOsErr` (worker ops file lines 37-62): maps
the underlying OS error number to the classified taxonomy of the worker;
anything unrecognized (including `EXDEV`) becomes the generic `ERR`. -/
def mapOsErr : GoErrno → FsError
  | .eacces => ⟨"EACCES", "permission denied"⟩
  | .eperm => ⟨"EACCES", "permission denied"⟩
  | .enoent => ⟨"ENOENT", "no such file or directory"⟩
  | .eexist => ⟨"EEXIST", "destination already exists"⟩
  | .enotempty => ⟨"EEXIST", "destination already exists"⟩
  | e => ⟨"ERR", errnoText e⟩

/- ────────────────────────────────────────────────────────────────────
   Paths and path validation (`validatePath`, worker ops file lines 18-26)
   ──────────────────────────────────────────────────────────────────── -/

/-- A cleaned absolute path, represented by its list of components:
`/srv/share` is `["srv", "share"]` and the root `/` is `[]`. -/
abbrev GoPath := List String

/-- Lexical path cleaning: fold a list of raw components onto an
accumulator, dropping empty and `"."` components and letting `".."` pop
the last accumulated component (at the root it is a no-op, as in
`filepath.Clean` for rooted paths).  This is exactly how
`filepath.Join`/`filepath.Clean` resolve a rooted path. -/
def cleanInto (acc : GoPath) : List String → GoPath
  | [] => acc
  | s :: rest =>
    if s = "" || s = "." then cleanInto acc rest
    else if s = ".." then cleanInto acc.dropLast rest
    else cleanInto (acc ++ [s]) rest

/-- Split a character list on `/`, keeping empty components, exactly as
`strings.Split(s, "/")` does; `cur` is the current component read so
far, in reverse. -/
def splitSlashAux (cur : List Char) : List Char → List String
  | [] => [String.mk cur.reverse]
  | c :: rest =>
    if c = '/' then String.mk cur.reverse :: splitSlashAux [] rest
    else splitSlashAux (c :: cur) rest

/-- Split a path string into its raw `/`-separated components. -/
def splitSlash (s : String) : List String :=
  splitSlashAux [] s.toList

/-- Embedding of `filepath.Join(dir, name)` for a cleaned absolute `dir`:
split `name` on `/` and clean the components onto `dir`. -/
def goJoin (dir : GoPath) (name : String) : GoPath :=
  cleanInto dir (splitSlash name)

/-- Parse an absolute path string into its cleaned component list
(embedding of `filepath.Clean` for a rooted path string). -/
def strToPath (s : String) : GoPath :=
  cleanInto [] (splitSlash s)

/-- Whether the path string is rooted, i.e. starts with `/`. -/
def isRooted (p : String) : Bool :=
  match p.toList with
  | [] => false
  | c :: _ => c = '/'

/-- Shallow embedding of `validatePath` (worker ops file lines 18-26):
reject a path containing a NUL byte, then reject a non-absolute path.
The code tests `filepath.IsAbs(filepath.Clean(p))`; since `Clean` of a
rooted path is rooted and `Clean` of an unrooted path (including the
empty one, which cleans to `"."`) is unrooted, that test is equivalent
to `p` starting with `/`. -/
def validatePath (p : String) : Option String :=
  if p.toList.any (fun c => c = Char.ofNat 0) then some "invalid path: null byte"
  else if !(isRooted p) then some "invalid path: must be absolute"
  else none

/-- Boolean form of `validatePath`: `true` when the path is accepted. -/
def validPath (p : String) : Bool :=
  (validatePath p).isNone

/-- Shallow embedding of `validatePaths` (worker main file lines 839-846):
first validation failure, wrapped as a generic `ERR` `fsError`. -/
def validatePaths : List String → Option FsError
  | [] => none
  | p :: rest =>
    match validatePath p with
    | some msg => some ⟨"ERR", msg⟩
    | none => validatePaths rest

/- ────────────────────────────────────────────────────────────────────
   Filesystem state
   ──────────────────────────────────────────────────────────────────── -/

/-- Filesystem state: the set of existing directories and the set of
existing regular files, each as a list of cleaned absolute paths.  The
root directory always exists and is not listed. -/
structure Fs where
  dirs : List GoPath
  files : List GoPath
deriving DecidableEq, Repr

/-- `os.Lstat` existence test: the path names an existing entry. -/
def fsExists (fs : Fs) (p : GoPath) : Bool :=
  fs.dirs.contains p || fs.files.contains p

/- ────────────────────────────────────────────────────────────────────
   mkdir (`doMkdir`, worker ops file lines 170-185)
   ──────────────────────────────────────────────────────────────────── -/

/-- The n-th candidate name of the mkdir collision loop: candidate 0 is
the requested name, candidate `n ≥ 1` is `name (n)` (the code builds it with
`fmt.Sprintf("%s (%d)", name, n)`). -/
def candName (name : String) : Nat → String
  | 0 => name
  | Nat.succ m => name ++ " (" ++ Nat.repr (m + 1) ++ ")"

/-- Embedding of `os.MkdirAll(p, 0755)`: succeeds without change when
`p` is already a directory, fails when `p` or one of its ancestors
exists as a regular file, and otherwise creates `p` together with every
missing ancestor. -/
def mkdirAll (fs : Fs) (p : GoPath) : Except GoErrno Fs :=
  if fs.dirs.contains p then .ok fs
  else if p.inits.any (fun q => fs.files.contains q) then .error (.other "not a directory")
  else .ok ⟨fs.dirs ++ (p.inits.filter (fun q => q ≠ [] && !fs.dirs.contains q)), fs.files⟩

/-- The collision loop of `doMkdir` (worker ops file lines 175-180):
at step `n`, keep `target` if `os.Lstat` reports it missing, otherwise
replace it by `parent/name (n)` and continue.  The bound `n ≤ 1000` of
the `for` loop is carried as the remaining iteration count `fuel`
(initially 1000, so the steps are exactly `n = 1 … 1000`); when it runs
out, the last generated candidate is used without being checked. -/
def mkdirGo (fs : Fs) (parent : GoPath) (name : String) : GoPath → Nat → Nat → GoPath
  | target, _, 0 => target
  | target, n, Nat.succ fuel =>
    if fsExists fs target then
      mkdirGo fs parent name (goJoin parent (name ++ " (" ++ Nat.repr n ++ ")")) (n + 1) fuel
    else target

/-- The directory path `doMkdir` will attempt to create: the collision
loop started at `parent/name` with `n = 1` and 1000 iterations left. -/
def mkdirTarget (fs : Fs) (parent : GoPath) (name : String) : GoPath :=
  mkdirGo fs parent name (goJoin parent name) 1 1000

/-- Shallow embedding of `doMkdir` (worker ops file lines 170-185):
default the name to `"New Folder"`, run the collision loop, then
`os.MkdirAll` the resulting target.  Returns the updated filesystem and
the created path (the code returns `mkdirResult{Path, Name}`; the
filesystem is threaded explicitly here). -/
def doMkdir (fs : Fs) (parent : GoPath) (name0 : String) : Except FsError (Fs × GoPath) :=
  let name := if name0 = "" then "New Folder" else name0
  let target := mkdirTarget fs parent name
  match mkdirAll fs target with
  | .error e => .error (mapOsErr e)
  | .ok fs2 => .ok (fs2, target)

/- ────────────────────────────────────────────────────────────────────
   rename (`doRename`, worker ops file lines 310-319)
   ──────────────────────────────────────────────────────────────────── -/

/-- Rebase `p` from subtree `src` onto `dst` (used to move a directory
subtree under its new name). -/
def rebase (src dst p : GoPath) : GoPath :=
  if src.isPrefixOf p then dst ++ p.drop src.length else p

/-- Embedding of `os.Rename(src, dst)`: fails with `ENOENT` when the
source is missing or the parent directory of the destination is missing;
otherwise atomically moves the file, or the directory together with its
subtree. -/
def osRename (fs : Fs) (src dst : GoPath) : Except GoErrno Fs :=
  if !fsExists fs src then .error .enoent
  else if !(dst.dropLast = [] || fs.dirs.contains dst.dropLast) then .error .enoent
  else if fs.files.contains src then
    .ok ⟨fs.dirs, dst :: fs.files.erase src⟩
  else
    .ok ⟨fs.dirs.map (rebase src dst), fs.files.map (rebase src dst)⟩

/-- Shallow embedding of `doRename` (worker ops file lines 310-319):
join the new name onto the parent directory of the source
(`filepath.Join(filepath.Dir(path), newName)`), reject an existing
destination with `EEXIST`, then `os.Rename`.  Returns the updated
filesystem and the destination path. -/
def doRename (fs : Fs) (path : GoPath) (newName : String) : Except FsError (Fs × GoPath) :=
  let dst := goJoin path.dropLast newName
  if fsExists fs dst then .error ⟨"EEXIST", "destination already exists"⟩
  else
    match osRename fs path dst with
    | .error e => .error (mapOsErr e)
    | .ok fs2 => .ok (fs2, dst)

/- ────────────────────────────────────────────────────────────────────
   delete (`doDelete`, worker ops file lines 323-328)
   ──────────────────────────────────────────────────────────────────── -/

/-- Remove the subtree rooted at `p` from the filesystem. -/
def removeSubtree (fs : Fs) (p : GoPath) : Fs :=
  ⟨fs.dirs.filter (fun q => !p.isPrefixOf q), fs.files.filter (fun q => !p.isPrefixOf q)⟩

/-- Embedding of `os.RemoveAll(p)`.  Per its documented contract, a
missing target is not an error: `RemoveAll` returns nil when the path
does not exist.  When the target does exist, `osErr` is the oracle for
a failure of the underlying removal (e.g. a permission error); on
success the whole subtree is removed. -/
def removeAll (fs : Fs) (p : GoPath) (osErr : Option GoErrno) : Except GoErrno Fs :=
  if fsExists fs p then
    match osErr with
    | some e => .error e
    | none => .ok (removeSubtree fs p)
  else .ok fs

/-- Shallow embedding of `doDelete` (worker ops file lines 323-328):
`os.RemoveAll` mapped through `mapOsErr`. -/
def doDelete (fs : Fs) (p : GoPath) (osErr : Option GoErrno) : Except FsError Fs :=
  match removeAll fs p osErr with
  | .error e => .error (mapOsErr e)
  | .ok fs2 => .ok fs2

/-- The delete operation as dispatched by `handleTask` (worker main file
lines 766-780): validate the path string, then run `doDelete` on the
parsed path. -/
def deleteOp (fs : Fs) (p : String) (osErr : Option GoErrno) : Except FsError Fs :=
  match validatePaths [p] with
  | some e => .error e
  | none => doDelete fs (strToPath p) osErr

/- ────────────────────────────────────────────────────────────────────
   read (`doRead`, worker ops file lines 148-161)
   ──────────────────────────────────────────────────────────────────── -/

/-- `maxReadBytes` from the worker ops file line 148: 64 MiB. -/
def maxReadBytes : Nat := 64 * 1024 * 1024

/-- Shallow embedding of `doRead` (worker ops file lines 150-161).
`openErr`/`readErr` are oracles for a failure of `os.Open` and of the
read loop; `contents` is the byte content of the file.  On success,
`io.ReadAll(io.LimitReader(f, maxReadBytes))` yields exactly the first
`maxReadBytes` bytes of the file. -/
def doRead (openErr readErr : Option GoErrno) (contents : List Nat) :
    Except FsError (List Nat) :=
  match openErr with
  | some e => .error (mapOsErr e)
  | none =>
    match readErr with
    | some e => .error (mapOsErr e)
    | none => .ok (contents.take maxReadBytes)

/- ────────────────────────────────────────────────────────────────────
   move (`doMove`, worker ops file lines 279-301)
   ──────────────────────────────────────────────────────────────────── -/

/-- Outcome oracle for the `os.Rename` call inside `doMove`. -/
inductive RenameOutcome
  | ok
  | exdev
  | err (e : GoErrno)
deriving DecidableEq, Repr

/-- The filesystem calls `doMove` can issue, in order: the `os.Lstat`
destination probe, `os.Rename`, the recursive `copyAll` fallback and
the `os.RemoveAll` of the source. -/
inductive MoveEvent
  | lstatDst
  | rename
  | copyAll
  | removeAllSrc
deriving DecidableEq, Repr

/-- Shallow embedding of `doMove` (worker ops file lines 279-301) over
outcome oracles: `dstExists` is the `os.Lstat(dst)` probe, `ren` the
`os.Rename` outcome, `cp` a failure of the `copyAll` fallback and `rm`
a failure of the final `os.RemoveAll(src)` (`none` = success).  Returns
the trace of filesystem calls issued and the result of the operation. -/
def doMove (dstExists : Bool) (ren : RenameOutcome) (cp rm : Option GoErrno) :
    List MoveEvent × Except FsError Unit :=
  if dstExists then
    ([.lstatDst], .error ⟨"EEXIST", "destination already exists"⟩)
  else
    match ren with
    | .ok => ([.lstatDst, .rename], .ok ())
    | .err e => ([.lstatDst, .rename], .error (mapOsErr e))
    | .exdev =>
      match cp with
      | some e => ([.lstatDst, .rename, .copyAll], .error (mapOsErr e))
      | none =>
        match rm with
        | some e => ([.lstatDst, .rename, .copyAll, .removeAllSrc], .error (mapOsErr e))
        | none => ([.lstatDst, .rename, .copyAll, .removeAllSrc], .ok ())

/- ────────────────────────────────────────────────────────────────────
   Transport layer (`handleTask`, worker main file lines 684-837;
   request-reply handlers, lines 534-680)
   ──────────────────────────────────────────────────────────────────── -/

/-- `taskMsg` from the worker main file lines 420-435: the decoded JSON
payload of a durable-queue job. -/
structure TaskMsg where
  jobId : String
  linuxUsername : String
  path : String
  parentPath : String
  name : String
  src : String
  dstDir : String
  newName : String
  destFile : String
  chunks : List String
  stagingDir : String
  mode : String
  owner : String
  group : String
deriving DecidableEq, Repr

/-- What `handleTask` does with the fetched queue message: `msg.Term()`
(terminate, never redelivered), `msg.Nak()` (negative acknowledgement,
eligible for redelivery) or `msg.Ack()`. -/
inductive AckAction
  | term
  | nak
  | ack
deriving DecidableEq, Repr

/-- `jobEvent` from the worker main file lines 452-457, as published by
`publishJobResult` (lines 471-478): the job id, the terminal status and
the error message for a failure. -/
structure JobEvent where
  jobId : String
  status : String
  errMsg : Option String
deriving DecidableEq, Repr

/-- Observable outcome of `handleTask` on one message: the
acknowledgement action, the published job events, whether the operation
body (the `withUser`-wrapped filesystem work) ran, and whether the
assemble staging directory was cleaned up. -/
structure TaskOutcome where
  action : AckAction
  events : List JobEvent
  opRan : Bool
  stagingCleaned : Bool
deriving DecidableEq, Repr

/-- The path arguments the case for each subject of `handleTask` passes to
`validatePaths` (worker main file lines 697-828), and `none` for a
subject hitting the `default` branch.  Note the assemble case validates
`destFile` and the chunk paths but not `stagingDir`. -/
def taskPaths (subject : String) (t : TaskMsg) : Option (List String) :=
  if subject = "nasx.root.fs.mkdir" then some [t.parentPath]
  else if subject = "nasx.root.fs.copy" then some [t.src, t.dstDir]
  else if subject = "nasx.root.fs.move" then some [t.src, t.dstDir]
  else if subject = "nasx.root.fs.rename" then some [t.path]
  else if subject = "nasx.root.fs.delete" then some [t.path]
  else if subject = "nasx.root.fs.assemble" then some (t.destFile :: t.chunks)
  else if subject = "nasx.root.fs.chmod" then some [t.path]
  else if subject = "nasx.root.fs.chown" then some [t.path]
  else none

/-- Shallow embedding of `handleTask` (worker main file lines 684-837).

`parsed` is the result of `json.Unmarshal` on the message body (`none`
= malformed), `subject` the message subject, and `opResult` the outcome
oracle for the operation body (`none` = success) — the body itself is
the `withUser`-wrapped call of the matching `do*` function, modelled
separately.  The control flow follows the code: a malformed payload or
an unknown subject is `Term`inated with no event; a validation failure
skips the operation body and, like a classified operation failure, is
`Nak`ed with a `failed` event; success is `Ack`ed with a `completed`
event; on a successful assemble the staging directory is removed only
when it is non-empty and itself passes `validatePath` (lines 797-805),
silently skipped otherwise. -/
def handleTask (parsed : Option TaskMsg) (subject : String) (opResult : Option FsError) :
    TaskOutcome :=
  match parsed with
  | none => ⟨.term, [], false, false⟩
  | some t =>
    match taskPaths subject t with
    | none => ⟨.term, [], false, false⟩
    | some ps =>
      match validatePaths ps with
      | some e => ⟨.nak, [⟨t.jobId, "failed", some e.message⟩], false, false⟩
      | none =>
        match opResult with
        | some e => ⟨.nak, [⟨t.jobId, "failed", some e.message⟩], true, false⟩
        | none =>
          let cleaned := subject = "nasx.root.fs.assemble"
            && t.stagingDir ≠ "" && validPath t.stagingDir
          ⟨.ack, [⟨t.jobId, "completed", none⟩], true, cleaned⟩

/-- `chunkMeta` from `handleWriteChunk` (worker main file lines 535-540):
the JSON metadata carried in the `X-Meta` header of a chunk-write
request. -/
structure ChunkMeta where
  uploadId : String
  chunkIndex : Nat
  destDir : String
  linuxUsername : String
deriving DecidableEq, Repr

/-- A request-reply answer: reply `{ok:true, result}` or reply
`{ok:false, error, code}` with a classified error. -/
inductive SyncReply
  | okReply
  | errReply (e : FsError)
deriving DecidableEq, Repr

/-- Shallow embedding of `handleWriteChunk` (worker main file lines
534-579): `meta` is the parsed `X-Meta` header (`none` = missing or
unparsable), `opResult` the outcome oracle for the `withUser`-wrapped
mkdir-and-write body.  Returns the reply and whether the body ran.  The
destination directory is validated before any filesystem access. -/
def handleWriteChunk (meta : Option ChunkMeta) (opResult : Option FsError) :
    SyncReply × Bool :=
  match meta with
  | none => (.errReply ⟨"ERR", "missing or bad X-Meta header"⟩, false)
  | some m =>
    match validatePath m.destDir with
    | some msg => (.errReply ⟨"ERR", msg⟩, false)
    | none =>
      match opResult with
      | some e => (.errReply e, true)
      | none => (.okReply, true)

/-- Shallow embedding of the shared shape of `handleList`, `handleStat`
and `handleRead` (worker main file lines 581-680): decode the request
(`none` = bad JSON), validate `req.Path`, then run the
`withUser`-wrapped operation.  Returns the reply and whether the
operation ran. -/
def handleSync (req : Option String) (opResult : Option FsError) :
    SyncReply × Bool :=
  match req with
  | none => (.errReply ⟨"ERR", "bad request"⟩, false)
  | some path =>
    match validatePath path with
    | some msg => (.errReply ⟨"ERR", msg⟩, false)
    | none =>
      match opResult with
      | some e => (.errReply e, true)
      | none => (.okReply, true)

/- ────────────────────────────────────────────────────────────────────
   Concrete fixtures used by the theorems below
   ──────────────────────────────────────────────────────────────────── -/

/-- A filesystem with `/srv/share` and nothing under it. -/
def fsShare : Fs := ⟨[["srv"], ["srv", "share"]], []⟩

/-- A filesystem in which the mkdir name `a` and all 1000 collision
candidates `a (1)` … `a (1000)` already exist as directories under
`/p`. -/
def mkdirFullFs : Fs :=
  ⟨["p"] :: (List.range 1001).map (fun k => goJoin ["p"] (candName "a" k)), []⟩

/-- An assemble task whose main path arguments are valid but whose
staging directory path `rel` is not absolute. -/
def badStagingTask : TaskMsg :=
  ⟨"j7", "alice", "", "", "", "", "", "", "/data/out.bin",
   ["/tmp/c0.part", "/tmp/c1.part"], "rel", "", "", ""⟩

/-- A delete task for `/data/tmp` used to instantiate the queue
protocol. -/
def deleteTask : TaskMsg :=
  ⟨"j9", "bob", "/data/tmp", "", "", "", "", "", "", [], "", "", "", ""⟩

/-- A mkdir task whose parent path `nope` is not absolute. -/
def badParentTask : TaskMsg :=
  ⟨"j1", "carol", "", "nope", "docs", "", "", "", "", [], "", "", "", ""⟩

/- ────────────────────────────────────────────────────────────────────
   Helper lemmas
   ──────────────────────────────────────────────────────────────────── -/

theorem goJoin_empty (acc : GoPath) : goJoin acc "" = acc := rfl

theorem goJoin_dot (acc : GoPath) : goJoin acc "." = acc := rfl

theorem goJoin_dotdot (acc : GoPath) : goJoin acc ".." = acc.dropLast := rfl

theorem candName_succ (name : String) (n : Nat) (h : 1 ≤ n) :
    candName name n = name ++ " (" ++ Nat.repr n ++ ")" := by
  cases n with
  | zero => omega
  | succ m => rfl

/-- If every one of the 1001 candidate names already exists, the
collision loop of `doMkdir`, entered at step `n` with the candidate of
index `n - 1` and `1001 - n` iterations left, ends on the unchecked
candidate of index 1000. -/
theorem mkdirGo_exhausted (fs : Fs) (parent : GoPath) (name : String)
    (H : ∀ k, k ≤ 1000 → fsExists fs (goJoin parent (candName name k)) = true) :
    ∀ fuel n, n + fuel = 1001 → 1 ≤ n →
      mkdirGo fs parent name (goJoin parent (candName name (n - 1))) n fuel =
        goJoin parent (candName name 1000) := by
  intro fuel
  induction fuel with
  | zero =>
    intro n hsum _
    have hn : n = 1001 := by omega
    subst hn
    rfl
  | succ k ih =>
    intro n hsum hn
    show (if fsExists fs (goJoin parent (candName name (n - 1))) = true then
        mkdirGo fs parent name (goJoin parent (name ++ " (" ++ Nat.repr n ++ ")")) (n + 1) k
      else goJoin parent (candName name (n - 1))) = goJoin parent (candName name 1000)
    rw [H (n - 1) (by omega), if_pos rfl]
    have hname : name ++ " (" ++ Nat.repr n ++ ")" = candName name n :=
      (candName_succ name n hn).symm
    rw [hname]
    have hidx : n = (n + 1) - 1 := by omega
    rw [hidx]
    exact ih (n + 1) (by omega) (by omega)

theorem mkdirFullFs_has_candidate (k : Nat) (hk : k ≤ 1000) :
    fsExists mkdirFullFs (goJoin ["p"] (candName "a" k)) = true := by
  unfold fsExists mkdirFullFs
  have hmem : goJoin ["p"] (candName "a" k) ∈
      (["p"] :: (List.range 1001).map (fun j => goJoin ["p"] (candName "a" j))) := by
    refine List.mem_cons_of_mem _ ?_
    exact List.mem_map.mpr ⟨k, List.mem_range.mpr (by omega), rfl⟩
  simp only [List.elem_eq_true_of_mem hmem, Bool.true_or]

/-- When the target computed by the collision loop already exists as a
directory, `os.MkdirAll` succeeds without change and `doMkdir` reports
success with that path. -/
theorem doMkdir_of_existing_dir (fs : Fs) (parent : GoPath) (name0 : String)
    (h2 : fs.dirs.contains (mkdirTarget fs parent (if name0 = "" then "New Folder" else name0)) = true) :
    doMkdir fs parent name0 =
      .ok (fs, mkdirTarget fs parent (if name0 = "" then "New Folder" else name0)) := by
  unfold doMkdir mkdirAll
  simp only [h2, eq_self_iff_true, if_true]

/-- With all 1001 candidates taken, `doMkdir` still reports success and
returns the path of the already-existing directory `a (1000)`. -/
theorem doMkdir_full_eval :
    doMkdir mkdirFullFs ["p"] "a" = .ok (mkdirFullFs, ["p", "a (1000)"]) := by
  have hname : (if ("a" : String) = "" then "New Folder" else "a") = "a" := by decide
  have htarget : mkdirTarget mkdirFullFs ["p"] "a" = (["p", "a (1000)"] : GoPath) := by
    have h1 : mkdirTarget mkdirFullFs ["p"] "a" = goJoin ["p"] (candName "a" 1000) := by
      unfold mkdirTarget
      have h0 : goJoin ["p"] ("a" : String) = goJoin ["p"] (candName "a" (1 - 1)) := rfl
      rw [h0]
      exact mkdirGo_exhausted mkdirFullFs ["p"] "a" mkdirFullFs_has_candidate 1000 1 rfl (by omega)
    have h2 : goJoin ["p"] (candName "a" 1000) = (["p", "a (1000)"] : GoPath) := by decide
    rw [h1, h2]
  have hdirs : mkdirFullFs.dirs.contains (["p", "a (1000)"] : GoPath) = true := by
    have h := mkdirFullFs_has_candidate 1000 (by omega)
    have h2 : goJoin ["p"] (candName "a" 1000) = (["p", "a (1000)"] : GoPath) := by decide
    rw [h2] at h
    unfold fsExists at h
    cases hc : mkdirFullFs.dirs.contains (["p", "a (1000)"] : GoPath) with
    | true => rfl
    | false =>
      rw [hc] at h
      simp only [Bool.false_or] at h
      exact absurd h (by decide)
  have key := doMkdir_of_existing_dir mkdirFullFs ["p"] "a" (by rw [hname, htarget]; exact hdirs)
  rw [hname, htarget] at key
  exact key

/- ────────────────────────────────────────────────────────────────────
   Claim theorems
   ──────────────────────────────────────────────────────────────────── -/

/-- C1: for every identity with non-zero id and every unit of work, when
the three credential setup syscalls succeed, `runAsUser` issues exactly
the setup calls (supplementary groups, then gid, then uid), executes
the unit of work, and afterwards restores the effective uid, then the
gid, then the supplementary groups, in that reverse order — whatever
the unit of work returned — and returns the result of the unit of
work. -/
theorem runAsUser_unconditional_restore (ctx : UserCtx) (fnErr : Option String)
    (h : ctx.uid ≠ 0) :
    runAsUser ctx true true true fnErr =
      ([CredEvent.setgroups ctx.gids, CredEvent.setresgid ctx.gid ctx.gid 0,
        CredEvent.setresuid 0 ctx.uid 0, CredEvent.runWork,
        CredEvent.setresuid 0 0 0, CredEvent.setresgid 0 0 0, CredEvent.setgroups [0]],
       RunResult.done fnErr) := rfl

/-- Witness for C1 at uid 1000 with a failing unit of work. -/
theorem runAsUser_unconditional_restore_witness :
    runAsUser ⟨1000, 1000, [1000, 27]⟩ true true true (some "boom") =
      ([CredEvent.setgroups [1000, 27], CredEvent.setresgid 1000 1000 0,
        CredEvent.setresuid 0 1000 0, CredEvent.runWork,
        CredEvent.setresuid 0 0 0, CredEvent.setresgid 0 0 0, CredEvent.setgroups [0]],
       RunResult.done (some "boom")) :=
  runAsUser_unconditional_restore ⟨1000, 1000, [1000, 27]⟩ (some "boom") (by decide)

/-- C3: for every identity with non-zero id, if any of the three setup
syscalls fails, `runAsUser` returns precisely that failure (the first
failing step, in setup order) and the unit of work never runs. -/
theorem runAsUser_setup_failure_no_work (ctx : UserCtx)
    (okSetgroups okSetresgid okSetresuid : Bool) (fnErr : Option String)
    (huid : ctx.uid ≠ 0)
    (hfail : (okSetgroups && okSetresgid && okSetresuid) = false) :
    (runAsUser ctx okSetgroups okSetresgid okSetresuid fnErr).2 =
      (if !okSetgroups then RunResult.setgroupsFailed
       else if !okSetresgid then RunResult.setresgidFailed
       else RunResult.setresuidFailed) ∧
    CredEvent.runWork ∉ (runAsUser ctx okSetgroups okSetresgid okSetresuid fnErr).1 := by
  cases okSetgroups <;> cases okSetresgid <;> cases okSetresuid <;>
    simp_all [runAsUser]

/-- Witness for C3: with the gid step failing, the gid failure is
returned and the unit of work never appears in the trace. -/
theorem runAsUser_setup_failure_no_work_witness :
    (runAsUser ⟨1000, 1000, [1000]⟩ true false true none).2 =
      (if !true then RunResult.setgroupsFailed
       else if !false then RunResult.setresgidFailed
       else RunResult.setresuidFailed) ∧
    CredEvent.runWork ∉ (runAsUser ⟨1000, 1000, [1000]⟩ true false true none).1 :=
  runAsUser_setup_failure_no_work ⟨1000, 1000, [1000]⟩ true false true none
    (by decide) (by decide)

/-- C8: for every move whose destination probe found nothing and whose
rename fails with the cross-device error, `doMove` falls back to the
recursive copy; the source is removed exactly when the copy succeeded,
and always after it in the call trace; if the copy fails partway, the
operation reports the mapped error and the source removal is never
attempted. -/
theorem doMove_exdev_copy_then_delete (cp rm : Option GoErrno) :
    MoveEvent.copyAll ∈ (doMove false .exdev cp rm).1 ∧
    (MoveEvent.removeAllSrc ∈ (doMove false .exdev cp rm).1 ↔ cp = none) ∧
    (∀ e, cp = some e →
      doMove false .exdev cp rm =
        ([.lstatDst, .rename, .copyAll], .error (mapOsErr e))) ∧
    (cp = none →
      (doMove false .exdev cp rm).1 = [.lstatDst, .rename, .copyAll, .removeAllSrc] ∧
      (rm = none →
        doMove false .exdev cp rm =
          ([.lstatDst, .rename, .copyAll, .removeAllSrc], .ok ()))) := by
  cases cp <;> cases rm <;> simp [doMove]

/-- Witness for C8: a copy failure (disk full) aborts the fallback with
the source intact. -/
theorem doMove_exdev_copy_then_delete_witness :
    doMove false .exdev (some (.other "disk full")) none =
      ([.lstatDst, .rename, .copyAll], .error (mapOsErr (.other "disk full"))) :=
  (doMove_exdev_copy_then_delete (some (.other "disk full")) none).2.2.1
    (.other "disk full") rfl

/-- C9: for every readable file, `doRead` returns the first
`maxReadBytes` (64 MiB) bytes: the whole file when it is at most 64 MiB
long, and exactly 64 MiB — with no error — when it is longer. -/
theorem doRead_caps_at_64MiB (contents : List Nat) :
    doRead none none contents = .ok (contents.take maxReadBytes) ∧
    (contents.length ≤ maxReadBytes → doRead none none contents = .ok contents) ∧
    (maxReadBytes < contents.length →
      (contents.take maxReadBytes).length = maxReadBytes) := by
  refine ⟨rfl, ?_, ?_⟩
  · intro h
    simp [doRead, List.take_of_length_le h]
  · intro h
    rw [List.length_take]
    omega

/-- Witness for C9: a 3-byte file is returned whole; a file one byte
over the cap yields exactly `maxReadBytes` bytes. -/
theorem doRead_caps_at_64MiB_witness :
    doRead none none [1, 2, 3] = .ok [1, 2, 3] ∧
    ((List.replicate (maxReadBytes + 1) 0).take maxReadBytes).length = maxReadBytes :=
  ⟨(doRead_caps_at_64MiB [1, 2, 3]).2.1 (by decide),
   (doRead_caps_at_64MiB (List.replicate (maxReadBytes + 1) 0)).2.2
     (by rw [List.length_replicate]; exact Nat.lt_succ_self _)⟩

/-- C10: for every valid (absolute, NUL-free) path string naming no
existing entry, the delete operation returns success — `os.RemoveAll`
treats a missing target as already removed, whatever the removal oracle
would have answered. -/
theorem deleteOp_missing_target_ok (fs : Fs) (p : String) (osErr : Option GoErrno)
    (hvalid : validPath p = true) (hmiss : fsExists fs (strToPath p) = false) :
    deleteOp fs p osErr = .ok fs := by
  have hv : validatePath p = none := by
    unfold validPath at hvalid
    exact Option.isNone_iff_eq_none.mp hvalid
  simp [deleteOp, validatePaths, hv, doDelete, removeAll, hmiss]

/-- Witness for C10: deleting the absent `/gone` succeeds even with a
permission-failure oracle armed. -/
theorem deleteOp_missing_target_ok_witness :
    deleteOp ⟨[["srv"]], []⟩ "/gone" (some .eacces) = .ok ⟨[["srv"]], []⟩ :=
  deleteOp_missing_target_ok ⟨[["srv"]], []⟩ "/gone" (some .eacces)
    (by decide) (by decide)

/-- C5: for every message fetched from the durable work queue, a payload
that does not parse or whose subject is unknown is terminated with no
event; with the declared paths valid, a classified operation failure is
negatively acknowledged and one `failed` event is published; a success
is acknowledged and one `completed` event is published; and every
published event carries the jobId of the request unchanged. -/
theorem handleTask_queue_protocol :
    (∀ subj r, handleTask none subj r = ⟨.term, [], false, false⟩) ∧
    (∀ t subj r, taskPaths subj t = none →
      handleTask (some t) subj r = ⟨.term, [], false, false⟩) ∧
    (∀ t subj ps e, taskPaths subj t = some ps → validatePaths ps = none →
      handleTask (some t) subj (some e) =
        ⟨.nak, [⟨t.jobId, "failed", some e.message⟩], true, false⟩) ∧
    (∀ t subj ps, taskPaths subj t = some ps → validatePaths ps = none →
      (handleTask (some t) subj none).action = .ack ∧
      (handleTask (some t) subj none).events = [⟨t.jobId, "completed", none⟩]) ∧
    (∀ parsed subj r ev, ev ∈ (handleTask parsed subj r).events →
      ∃ t, parsed = some t ∧ ev.jobId = t.jobId) := by
  refine ⟨?_, ?_, ?_, ?_, ?_⟩
  · intro subj r
    rfl
  · intro t subj r h
    simp [handleTask, h]
  · intro t subj ps e h1 h2
    simp [handleTask, h1, h2]
  · intro t subj ps h1 h2
    simp [handleTask, h1, h2]
  · intro parsed subj r ev hmem
    cases parsed with
    | none => simp [handleTask] at hmem
    | some t =>
      refine ⟨t, rfl, ?_⟩
      cases hp : taskPaths subj t with
      | none => simp [handleTask, hp] at hmem
      | some ps =>
        cases hv : validatePaths ps with
        | some e =>
          simp [handleTask, hp, hv] at hmem
          rw [hmem]
        | none =>
          cases r with
          | some e =>
            simp [handleTask, hp, hv] at hmem
            rw [hmem]
          | none =>
            simp [handleTask, hp, hv] at hmem
            rw [hmem]

/-- Witness for C5 on a concrete delete task: an operation failure naks
and publishes the failure with jobId `j9`; a success acks. -/
theorem handleTask_queue_protocol_witness :
    handleTask (some deleteTask) "nasx.root.fs.delete"
        (some ⟨"EACCES", "permission denied"⟩) =
      ⟨.nak, [⟨"j9", "failed", some "permission denied"⟩], true, false⟩ ∧
    (handleTask (some deleteTask) "nasx.root.fs.delete" none).action = .ack :=
  ⟨handleTask_queue_protocol.2.2.1 deleteTask "nasx.root.fs.delete" ["/data/tmp"]
      ⟨"EACCES", "permission denied"⟩ (by decide) (by decide),
   (handleTask_queue_protocol.2.2.2.1 deleteTask "nasx.root.fs.delete" ["/data/tmp"]
      (by decide) (by decide)).1⟩

/-- C4 counterexample: an assemble request whose staging-directory path
`rel` is not absolute is a request with an invalid path argument, yet
the operation body runs, the message is acknowledged and a `completed`
event is published — no generic error is returned for it. -/
theorem handleTask_staging_dir_escapes_validation :
    validPath "rel" = false ∧
    badStagingTask.stagingDir = "rel" ∧
    handleTask (some badStagingTask) "nasx.root.fs.assemble" none =
      ⟨.ack, [⟨"j7", "completed", none⟩], true, false⟩ := by
  decide

/-- C4 (amended): every operation validates the paths it passes to
`validatePaths` before any filesystem access — for the async
operations these are the primary path arguments (mkdir: parent;
copy and move: src and dstDir; rename, delete, chmod, chown: path;
assemble: destFile and the chunk paths), and a violation naks the
message with a generic `ERR` failure event and never runs the
operation body; chunk-write validates its destination directory and the
other sync operations their path, replying with a generic `ERR` error
and no filesystem access on violation.  The assemble staging directory
is the exception: it is validated separately after a successful
assemble, and when invalid its cleanup is silently skipped while the
operation still acks and reports completion. -/
theorem handleTask_validates_declared_paths :
    (∀ t subj ps e r, taskPaths subj t = some ps → validatePaths ps = some e →
      handleTask (some t) subj r =
        ⟨.nak, [⟨t.jobId, "failed", some e.message⟩], false, false⟩) ∧
    (∀ ps e, validatePaths ps = some e → e.code = "ERR") ∧
    (∀ m r, validPath m.destDir = false →
      (handleWriteChunk (some m) r).2 = false ∧
      ∃ msg, (handleWriteChunk (some m) r).1 = .errReply ⟨"ERR", msg⟩) ∧
    (∀ p r, validPath p = false →
      (handleSync (some p) r).2 = false ∧
      ∃ msg, (handleSync (some p) r).1 = .errReply ⟨"ERR", msg⟩) ∧
    (∀ t ps, taskPaths "nasx.root.fs.assemble" t = some ps →
      validatePaths ps = none → validPath t.stagingDir = false →
      handleTask (some t) "nasx.root.fs.assemble" none =
        ⟨.ack, [⟨t.jobId, "completed", none⟩], true, false⟩) := by
  refine ⟨?_, ?_, ?_, ?_, ?_⟩
  · intro t subj ps e r h1 h2
    simp [handleTask, h1, h2]
  · intro ps e h
    induction ps with
    | nil => simp [validatePaths] at h
    | cons p rest ih =>
      unfold validatePaths at h
      cases hv : validatePath p with
      | some msg =>
        rw [hv] at h
        obtain rfl : FsError.mk "ERR" msg = e := Option.some_inj.mp h
        rfl
      | none =>
        rw [hv] at h
        exact ih h
  · intro m r h
    cases hv : validatePath m.destDir with
    | none =>
      unfold validPath at h
      rw [hv] at h
      simp at h
    | some msg =>
      refine ⟨by simp [handleWriteChunk, hv], msg, by simp [handleWriteChunk, hv]⟩
  · intro p r h
    cases hv : validatePath p with
    | none =>
      unfold validPath at h
      rw [hv] at h
      simp at h
    | some msg =>
      refine ⟨by simp [handleSync, hv], msg, by simp [handleSync, hv]⟩
  · intro t ps h1 h2 h3
    simp [handleTask, h1, h2, h3]

/-- Witness for C4 (amended): a relative mkdir parent naks with the
generic error and no filesystem access; a relative chunk-write
destination is refused before any access; the assemble staging
exception at the concrete bad task. -/
theorem handleTask_validates_declared_paths_witness :
    handleTask (some badParentTask) "nasx.root.fs.mkdir" (some ⟨"X", "y"⟩) =
      ⟨.nak, [⟨"j1", "failed", some "invalid path: must be absolute"⟩], false, false⟩ ∧
    (handleWriteChunk (some ⟨"u1", 0, "rel", "alice"⟩) none).2 = false ∧
    handleTask (some badStagingTask) "nasx.root.fs.assemble" none =
      ⟨.ack, [⟨"j7", "completed", none⟩], true, false⟩ :=
  ⟨handleTask_validates_declared_paths.1 badParentTask "nasx.root.fs.mkdir" ["nope"]
      ⟨"ERR", "invalid path: must be absolute"⟩ (some ⟨"X", "y"⟩) (by decide) (by decide),
   (handleTask_validates_declared_paths.2.2.1 ⟨"u1", 0, "rel", "alice"⟩ none (by decide)).1,
   handleTask_validates_declared_paths.2.2.2.2 badStagingTask
      ["/data/out.bin", "/tmp/c0.part", "/tmp/c1.part"] (by decide) (by decide) (by decide)⟩

/-- C6 counterexample: with the requested name and all 1000 collision
candidates `a (1)` … `a (1000)` already existing under `/p`, `doMkdir`
does not give up with an error — it reports success, returning the
1001st candidate `a (1000)`, which is an already-existing directory
(`os.MkdirAll` on an existing directory succeeds). -/
theorem doMkdir_exhaustion_no_error :
    doMkdir mkdirFullFs ["p"] "a" = .ok (mkdirFullFs, ["p", "a (1000)"]) ∧
    fsExists mkdirFullFs ["p", "a (1000)"] = true := by
  constructor
  · exact doMkdir_full_eval
  · have h := mkdirFullFs_has_candidate 1000 (by omega)
    have h2 : goJoin ["p"] (candName "a" 1000) = (["p", "a (1000)"] : GoPath) := by decide
    rw [h2] at h
    exact h

/-- C6 (amended): when no name is supplied, `"New Folder"` is used; on
collision, `" (n)"` is appended for increasing `n` from 1, so successive
mkdir calls with the same parent and name yield `name`, `name (1)`,
`name (2)`; the loop checks at most 1000 candidate names, but it never
gives up with an error: when all candidates collide, the unchecked
1001st candidate `name (1000)` is passed to `os.MkdirAll`, which
succeeds even though that directory already exists. -/
theorem doMkdir_collision_naming :
    (∀ fs parent, doMkdir fs parent "" = doMkdir fs parent "New Folder") ∧
    doMkdir fsShare ["srv", "share"] "Photos" =
      .ok (⟨[["srv"], ["srv", "share"], ["srv", "share", "Photos"]], []⟩,
           ["srv", "share", "Photos"]) ∧
    doMkdir ⟨[["srv"], ["srv", "share"], ["srv", "share", "Photos"]], []⟩
        ["srv", "share"] "Photos" =
      .ok (⟨[["srv"], ["srv", "share"], ["srv", "share", "Photos"],
             ["srv", "share", "Photos (1)"]], []⟩,
           ["srv", "share", "Photos (1)"]) ∧
    doMkdir ⟨[["srv"], ["srv", "share"], ["srv", "share", "Photos"],
              ["srv", "share", "Photos (1)"]], []⟩
        ["srv", "share"] "Photos" =
      .ok (⟨[["srv"], ["srv", "share"], ["srv", "share", "Photos"],
             ["srv", "share", "Photos (1)"], ["srv", "share", "Photos (2)"]], []⟩,
           ["srv", "share", "Photos (2)"]) ∧
    (doMkdir mkdirFullFs ["p"] "a").isOk = true := by
  refine ⟨fun fs parent => rfl, by decide, by decide, by decide, ?_⟩
  rw [doMkdir_full_eval]
  rfl

/-- C7 counterexample: a rename whose new name `sub/y` contains a path
separator is not rejected — the name is joined onto the parent
directory and, the joined destination being free, the rename proceeds,
moving `/srv/x` into the subdirectory as `/srv/sub/y`. -/
theorem doRename_separator_renames_into_subdir :
    ("sub/y".toList.contains '/') = true ∧
    doRename ⟨[["srv"], ["srv", "sub"]], [["srv", "x"]]⟩ ["srv", "x"] "sub/y" =
      .ok (⟨[["srv"], ["srv", "sub"]], [["srv", "sub", "y"]]⟩, ["srv", "sub", "y"]) := by
  decide

/-- C7 (amended): the worker itself never checks the new name (that
validation lives in the upstream API layer).  Inside the worker, an
empty or `"."` name joins to the parent directory of the source and a
`".."` name to its grandparent, so those requests are rejected with
`EEXIST` — and no rename is performed — whenever that directory exists;
but a name containing a path separator is joined into the path and the
rename proceeds normally (it may move the entry into a
subdirectory). -/
theorem doRename_name_handling :
    (∀ fs p, fsExists fs p.dropLast = true →
      doRename fs p "" = .error ⟨"EEXIST", "destination already exists"⟩ ∧
      doRename fs p "." = .error ⟨"EEXIST", "destination already exists"⟩) ∧
    (∀ fs p, fsExists fs p.dropLast.dropLast = true →
      doRename fs p ".." = .error ⟨"EEXIST", "destination already exists"⟩) ∧
    doRename ⟨[["a"], ["a", "d"]], [["a", "f"]]⟩ ["a", "f"] "d/g" =
      .ok (⟨[["a"], ["a", "d"]], [["a", "d", "g"]]⟩, ["a", "d", "g"]) := by
  refine ⟨?_, ?_, by decide⟩
  · intro fs p h
    constructor
    · simp [doRename, goJoin_empty, h]
    · simp [doRename, goJoin_dot, h]
  · intro fs p h
    simp [doRename, goJoin_dotdot, h]

/-- Witness for C7 (amended): an empty name is rejected when the parent
exists; a `".."` name is rejected when the grandparent exists. -/
theorem doRename_name_handling_witness :
    doRename ⟨[["srv"]], [["srv", "x"]]⟩ ["srv", "x"] "" =
      .error ⟨"EEXIST", "destination already exists"⟩ ∧
    doRename ⟨[["a"], ["a", "b"]], [["a", "b", "c"]]⟩ ["a", "b", "c"] ".." =
      .error ⟨"EEXIST", "destination already exists"⟩ :=
  ⟨(doRename_name_handling.1 ⟨[["srv"]], [["srv", "x"]]⟩ ["srv", "x"] (by decide)).1,
   doRename_name_handling.2.1 ⟨[["a"], ["a", "b"]], [["a", "b", "c"]]⟩ ["a", "b", "c"]
     (by decide)⟩
